import Mathlib

/-!
Shallow embedding of the `bevy_rcon` admin-panel module
(`src/lib.rs`, `src/template.rs`).

The module is CRUD over two lists:
 * the roster (`RconPlayers.players : Vec<RconPlayer>`), and
 * the ban store (the set of entities carrying a `DbRconBannedPlayer`
   component), modelled as a list in query-iteration order, with
   `spawn_bundle` appending at the end.

Each HTTP handler is embedded as a pure function on an `RconState`,
returning the new state, the rendered HTML string, and the list of
notification events it emitted (the source emits none).  Log output
(`warn!`) that the claims mention is returned as a list of strings.
Maud markup is rendered as plain string concatenation, in the order the
`html!` blocks produce their output.
-/

/-- `RconPlayer` (lib.rs): a player connected to the server. -/
structure RconPlayer where
  unique_id : String
  name : String
deriving DecidableEq, Repr

/-- `DbRconBannedPlayer` (lib.rs): a banned player snapshot persisted in
the database-backed component store. -/
structure DbRconBannedPlayer where
  unique_id : String
  name : String
deriving DecidableEq, Repr

/-- The mutable world state the handlers touch: the `RconPlayers`
resource and the entities with a `DbRconBannedPlayer` component (listed
in query-iteration order; `spawn_bundle` appends). -/
structure RconState where
  players : List RconPlayer
  banned : List DbRconBannedPlayer
deriving DecidableEq, Repr

/-- The notification events declared in lib.rs (`RconPlayerBanned`,
`RconPlayerKicked`). -/
inductive RconEvent where
  | playerBanned (player : RconPlayer)
  | playerKicked (player : RconPlayer)
deriving DecidableEq, Repr

/-- `TemplateParams` (template.rs). `content` is an already-rendered
markup fragment. -/
structure TemplateParams where
  tab_title : String
  game_name : String
  server_name : String
  content : String
deriving DecidableEq, Repr

/-- `base_template` (template.rs): wraps the content fragment in the
full HTML document shell. -/
def base_template (params : TemplateParams) : String :=
  "<!DOCTYPE html><html><head><title>" ++ params.tab_title ++
  "</title><script src=\"https://unpkg.com/htmx.org@1.9.10\"></script>" ++
  "<link href=\"https://fonts.googleapis.com/css2?family=Poppins:wght@400;600&display=swap\" rel=\"stylesheet\"></link>" ++
  "</head><body><h1>" ++ params.game_name ++ "</h1><h2>" ++
  params.server_name ++ "</h2>" ++ params.content ++ "</body></html>"

/-- `index` (lib.rs): renders the page shell with the two lazily loading
fragments.  The Rust handler reads no world state; the embedding takes
the state as every handler does and faithfully ignores it. -/
def index (_s : RconState) : String :=
  base_template
    { tab_title := "RCON Player Management"
      game_name := "Game Name"
      server_name := "Server Name"
      content :=
        "<h3>Connected Players</h3>" ++
        "<div id=\"player-list\" hx-get=\"/players\" hx-trigger=\"load\"></div>" ++
        "<h3>Banned Players</h3>" ++
        "<div id=\"banned-player-list\" hx-get=\"/ban_list\" hx-trigger=\"load\"></div>" }

/-- `player_item` (lib.rs): markup for one roster entry, plus the
`warn!` lines it logs.  The banned check is embedded exactly as written
in the source: `query.iter().next().map(|banned| banned.unique_id ==
player.unique_id).unwrap_or(false)`, i.e. it inspects only the FIRST
record yielded by the ban-store query. -/
def player_item (banned : List DbRconBannedPlayer) (player : RconPlayer) :
    String × List String :=
  let is_banned :=
    (banned.head?.map (fun b => b.unique_id == player.unique_id)).getD false
  let warnings :=
    if is_banned then
      ["You have added a banned player to the player list: " ++ player.name ++
       " (ID: " ++ player.unique_id ++
       "). Omitting from list. But you should check if a player is banned before adding them to the player list."]
    else []
  let markup :=
    if !is_banned then
      "<div class=\"player-item\"><span>" ++ player.name ++ " (ID: " ++
      player.unique_id ++ ")</span>" ++
      "<form hx-post=\"/ban_player\" hx-target=\"body\" hx-swap=\"innerHTML\">" ++
      "<input type=\"hidden\" name=\"unique_id\" value=\"" ++ player.unique_id ++
      "\"></input>" ++
      "<input type=\"hidden\" name=\"name\" value=\"" ++ player.name ++
      "\"></input>" ++
      "<button type=\"submit\">Ban</button></form></div>"
    else ""
  (markup, warnings)

/-- `list_players` (lib.rs): renders the roster fragment.  Returns the
fragment and the warnings logged by the `player_item` calls; the state
is not mutated. -/
def list_players (s : RconState) : String × List String :=
  let items := s.players.map (player_item s.banned)
  ("<div class=\"player-list\">" ++ String.join (items.map Prod.fst) ++ "</div>",
   (items.map Prod.snd).flatten)

/-- `list_bans` (lib.rs): renders the ban-store fragment. -/
def list_bans (s : RconState) : String :=
  "<div class=\"ban-list\">" ++
  String.join (s.banned.map (fun player =>
    "<div class=\"banned-player\"><span>" ++ player.name ++ " (ID: " ++
    player.unique_id ++ ")</span>" ++
    "<button hx-post=\"/unban_player/" ++ player.unique_id ++
    "\" hx-target=\"body\" hx-swap=\"innerHTML\">Unban</button></div>")) ++
  "</div>"

/-- `ban_player` (lib.rs): on an empty id or name, logs and returns the
index page unchanged; otherwise spawns a `DbRconBannedPlayer` bundle
(appended to the ban store) and `retain`s the roster entries whose
`unique_id` differs from the submitted id, then re-renders the index.
Returns (new state, page, emitted events). -/
def ban_player (form : RconPlayer) (s : RconState) :
    RconState × String × List RconEvent :=
  let id := form.unique_id
  let name := form.name
  if id.isEmpty || name.isEmpty then
    (s, index s, [])
  else
    let s1 : RconState :=
      { s with banned := s.banned ++ [{ unique_id := id, name := name }] }
    let s2 : RconState :=
      { s1 with players := s1.players.filter (fun player => player.unique_id != id) }
    (s2, index s2, [])

/-- The loop body of `unban_player` (lib.rs): walk the ban-store query
in order, despawn the first entity whose `unique_id` matches, then
`break`. -/
def despawnFirstBan (id : String) : List DbRconBannedPlayer → List DbRconBannedPlayer
  | [] => []
  | b :: rest => if b.unique_id == id then rest else b :: despawnFirstBan id rest

/-- `unban_player` (lib.rs): removes the first matching record from the
ban store (silent no-op when none matches), leaves the roster alone, and
re-renders the index.  Returns (new state, page, emitted events). -/
def unban_player (id : String) (s : RconState) :
    RconState × String × List RconEvent :=
  let s1 : RconState := { s with banned := despawnFirstBan id s.banned }
  (s1, index s1, [])

/-- Helper: a non-empty string has `isEmpty = false`. -/
theorem isEmpty_false_of_ne {s : String} (h : s ≠ "") : s.isEmpty = false := by
  by_contra hc
  exact h ((String.isEmpty_iff s).mp (by revert hc; cases s.isEmpty <;> simp))

/-- Helper: on a non-empty id and name, `ban_player` appends the
submitted record to the ban store, keeps exactly the roster entries with
a different `unique_id`, renders the index, and emits nothing. -/
theorem ban_player_run (s : RconState) (form : RconPlayer)
    (hid : form.unique_id ≠ "") (hname : form.name ≠ "") :
    ban_player form s =
      ({ players := s.players.filter (fun player => player.unique_id != form.unique_id),
         banned := s.banned ++ [{ unique_id := form.unique_id, name := form.name }] },
       index s, []) := by
  simp [ban_player, isEmpty_false_of_ne hid, isEmpty_false_of_ne hname, index]

/-- Helper: removing the first match from a list containing a match
splits the list at the first matching element. -/
theorem despawnFirstBan_found (id : String) (l : List DbRconBannedPlayer)
    (h : ∃ b ∈ l, b.unique_id = id) :
    ∃ l1 b l2, l = l1 ++ b :: l2 ∧ b.unique_id = id ∧
      (∀ x ∈ l1, x.unique_id ≠ id) ∧ despawnFirstBan id l = l1 ++ l2 := by
  induction l with
  | nil => simp at h
  | cons a rest ih =>
    by_cases ha : a.unique_id = id
    · exact ⟨[], a, rest, by simp, ha, by simp, by simp [despawnFirstBan, ha]⟩
    · have h' : ∃ b ∈ rest, b.unique_id = id := by
        obtain ⟨b, hb, hbid⟩ := h
        rcases List.mem_cons.mp hb with hb | hb
        · exact absurd (hb ▸ hbid) ha
        · exact ⟨b, hb, hbid⟩
      obtain ⟨l1, b, l2, heq, hbid, hl1, hrun⟩ := ih h'
      refine ⟨a :: l1, b, l2, by simp [heq], hbid, ?_, ?_⟩
      · intro x hx
        rcases List.mem_cons.mp hx with hx | hx
        · exact hx ▸ ha
        · exact hl1 x hx
      · simp [despawnFirstBan, ha, hrun]

/-- Helper: removing the first match from a list with no match is the
identity. -/
theorem despawnFirstBan_not_found (id : String) (l : List DbRconBannedPlayer)
    (h : ∀ b ∈ l, b.unique_id ≠ id) :
    despawnFirstBan id l = l := by
  induction l with
  | nil => rfl
  | cons a rest ih =>
    have ha : a.unique_id ≠ id := h a (by simp)
    simp [despawnFirstBan, ha, ih (fun b hb => h b (List.mem_cons_of_mem a hb))]

/-- The state exhibiting the `player_item` defect: the roster holds
player `steam_456`, and the ban store holds a record for `steam_456`
that is not the first record of the store. -/
def bugState : RconState :=
  { players := [{ unique_id := "steam_456", name := "Player2" }],
    banned := [{ unique_id := "steam_123", name := "Player1" },
               { unique_id := "steam_456", name := "Player2" }] }

/-- C1: the claim fails on the code.  `player_item` decides "is banned"
by looking only at the FIRST record the ban-store query yields
(`query.iter().next()`), so a roster entry whose id appears in a later
ban record is rendered with a Ban form and no warning is logged, even
though its id is in the ban store.  Concretely, with ban store
[steam_123, steam_456] and roster [steam_456], the steam_456 entry is
rendered and `list_players` logs no warning. -/
theorem list_players_renders_banned_entry :
    (∃ b ∈ bugState.banned, b.unique_id = "steam_456") ∧
    (player_item bugState.banned { unique_id := "steam_456", name := "Player2" }).1 ≠ "" ∧
    (list_players bugState).2 = [] := by
  refine ⟨⟨{ unique_id := "steam_456", name := "Player2" }, by decide, rfl⟩, ?_, ?_⟩
  · decide
  · decide

/-- C2: for every ban submission with non-empty id and name, afterwards
the ban store contains a record with that id and the roster contains no
player with that id. -/
theorem ban_player_bans_and_removes (s : RconState) (form : RconPlayer)
    (hid : form.unique_id ≠ "") (hname : form.name ≠ "") :
    (∃ b ∈ (ban_player form s).1.banned, b.unique_id = form.unique_id) ∧
    ∀ p ∈ (ban_player form s).1.players, p.unique_id ≠ form.unique_id := by
  rw [ban_player_run s form hid hname]
  constructor
  · exact ⟨{ unique_id := form.unique_id, name := form.name }, by simp, rfl⟩
  · intro p hp
    have := (List.mem_filter.mp hp).2
    simpa using this

/-- Witness for C2 at the spec scenario: roster [steam_123], empty ban
store, ban steam_123. -/
theorem ban_player_bans_and_removes_witness :
    (∃ b ∈ (ban_player { unique_id := "steam_123", name := "Player1" }
        { players := [{ unique_id := "steam_123", name := "Player1" }],
          banned := [] }).1.banned, b.unique_id = "steam_123") ∧
    ∀ p ∈ (ban_player { unique_id := "steam_123", name := "Player1" }
        { players := [{ unique_id := "steam_123", name := "Player1" }],
          banned := [] }).1.players, p.unique_id ≠ "steam_123" :=
  ban_player_bans_and_removes _ _ (by decide) (by decide)

/-- C3: unbanning an id present in the ban store removes exactly the
first matching record: the store splits as `l1 ++ b :: l2` with `b` the
first match, the result is `l1 ++ l2` (so every other matching record,
all in `l2`, remains), and the roster is unchanged. -/
theorem unban_player_removes_first_match (s : RconState) (id : String)
    (h : ∃ b ∈ s.banned, b.unique_id = id) :
    (unban_player id s).1.players = s.players ∧
    ∃ l1 b l2, s.banned = l1 ++ b :: l2 ∧ b.unique_id = id ∧
      (∀ x ∈ l1, x.unique_id ≠ id) ∧ (unban_player id s).1.banned = l1 ++ l2 := by
  refine ⟨rfl, ?_⟩
  obtain ⟨l1, b, l2, heq, hbid, hl1, hrun⟩ := despawnFirstBan_found id s.banned h
  exact ⟨l1, b, l2, heq, hbid, hl1, hrun⟩

/-- Witness for C3: ban store [steam_123/P, steam_456/Q, steam_456/R],
unban steam_456 removes only the Q record. -/
theorem unban_player_removes_first_match_witness :
    (unban_player "steam_456"
      { players := [{ unique_id := "steam_123", name := "P" }],
        banned := [{ unique_id := "steam_123", name := "P" },
                   { unique_id := "steam_456", name := "Q" },
                   { unique_id := "steam_456", name := "R" }] }).1.players =
      [{ unique_id := "steam_123", name := "P" }] ∧
    ∃ l1 b l2,
      ([{ unique_id := "steam_123", name := "P" },
        { unique_id := "steam_456", name := "Q" },
        { unique_id := "steam_456", name := "R" }] : List DbRconBannedPlayer) =
        l1 ++ b :: l2 ∧ b.unique_id = "steam_456" ∧
      (∀ x ∈ l1, x.unique_id ≠ "steam_456") ∧
      (unban_player "steam_456"
        { players := [{ unique_id := "steam_123", name := "P" }],
          banned := [{ unique_id := "steam_123", name := "P" },
                     { unique_id := "steam_456", name := "Q" },
                     { unique_id := "steam_456", name := "R" }] }).1.banned = l1 ++ l2 :=
  unban_player_removes_first_match _ "steam_456" (by decide)

/-- C4: a ban submission with an empty id or an empty name changes
neither store and returns the index page. -/
theorem ban_player_rejects_empty (s : RconState) (form : RconPlayer)
    (h : form.unique_id = "" ∨ form.name = "") :
    (ban_player form s).1 = s ∧ (ban_player form s).2.1 = index s := by
  have hc : (form.unique_id.isEmpty || form.name.isEmpty) = true := by
    rcases h with h | h <;> simp [h, String.isEmpty_iff]
  simp [ban_player, hc]

/-- Witness for C4: empty name. -/
theorem ban_player_rejects_empty_witness :
    (ban_player { unique_id := "steam_123", name := "" }
      { players := [{ unique_id := "steam_123", name := "Player1" }],
        banned := [] }).1 =
      { players := [{ unique_id := "steam_123", name := "Player1" }],
        banned := [] } ∧
    (ban_player { unique_id := "steam_123", name := "" }
      { players := [{ unique_id := "steam_123", name := "Player1" }],
        banned := [] }).2.1 =
      index { players := [{ unique_id := "steam_123", name := "Player1" }],
              banned := [] } :=
  ban_player_rejects_empty _ _ (Or.inr rfl)

/-- C5: unbanning an id with no matching ban record changes neither
store and returns the index page. -/
theorem unban_player_no_match (s : RconState) (id : String)
    (h : ∀ b ∈ s.banned, b.unique_id ≠ id) :
    (unban_player id s).1 = s ∧ (unban_player id s).2.1 = index s := by
  have hrun := despawnFirstBan_not_found id s.banned h
  constructor
  · show ({ s with banned := despawnFirstBan id s.banned } : RconState) = s
    rw [hrun]
  · rfl

/-- Witness for C5: unban an id absent from the ban store. -/
theorem unban_player_no_match_witness :
    (unban_player "steam_999"
      { players := [{ unique_id := "steam_123", name := "Player1" }],
        banned := [{ unique_id := "steam_456", name := "Player2" }] }).1 =
      { players := [{ unique_id := "steam_123", name := "Player1" }],
        banned := [{ unique_id := "steam_456", name := "Player2" }] } ∧
    (unban_player "steam_999"
      { players := [{ unique_id := "steam_123", name := "Player1" }],
        banned := [{ unique_id := "steam_456", name := "Player2" }] }).2.1 =
      index { players := [{ unique_id := "steam_123", name := "Player1" }],
              banned := [{ unique_id := "steam_456", name := "Player2" }] } :=
  unban_player_no_match _ "steam_999" (by decide)

/-- C6: banning is not idempotent: two ban submissions for the same
non-empty id and name add two records with that id (the count of
matching ban records grows by exactly 2, hence is at least 2). -/
theorem ban_twice_two_records (s : RconState) (id name : String)
    (hid : id ≠ "") (hname : name ≠ "") :
    ((ban_player { unique_id := id, name := name }
        ((ban_player { unique_id := id, name := name } s).1)).1.banned.countP
      (fun b => b.unique_id == id)) =
      (s.banned.countP (fun b => b.unique_id == id)) + 2 ∧
    2 ≤ ((ban_player { unique_id := id, name := name }
        ((ban_player { unique_id := id, name := name } s).1)).1.banned.countP
      (fun b => b.unique_id == id)) := by
  rw [ban_player_run s _ hid hname, ban_player_run _ _ hid hname]
  constructor
  · simp [List.countP_append, List.countP_cons]
  · simp [List.countP_append, List.countP_cons]

/-- Witness for C6: banning steam_123 twice from the empty ban store
yields exactly two matching records. -/
theorem ban_twice_two_records_witness :
    ((ban_player { unique_id := "steam_123", name := "Player1" }
        ((ban_player { unique_id := "steam_123", name := "Player1" }
          { players := [], banned := [] }).1)).1.banned.countP
      (fun b => b.unique_id == "steam_123")) =
      (([] : List DbRconBannedPlayer).countP (fun b => b.unique_id == "steam_123")) + 2 ∧
    2 ≤ ((ban_player { unique_id := "steam_123", name := "Player1" }
        ((ban_player { unique_id := "steam_123", name := "Player1" }
          { players := [], banned := [] }).1)).1.banned.countP
      (fun b => b.unique_id == "steam_123")) :=
  ban_twice_two_records { players := [], banned := [] } "steam_123" "Player1"
    (by decide) (by decide)

/-- C7: neither handler emits any `RconPlayerBanned` or
`RconPlayerKicked` event: for every state and input, the event list of
both `ban_player` and `unban_player` is empty. -/
theorem handlers_emit_no_events (s : RconState) (form : RconPlayer) (id : String) :
    (ban_player form s).2.2 = [] ∧ (unban_player id s).2.2 = [] := by
  constructor
  · simp only [ban_player]
    split <;> rfl
  · rfl

/-- C8: `base_template` is deterministic: equal tab title, game name,
server name and content fragment yield the same HTML document (the
embedding of the function is pure, so it mutates no state). -/
theorem base_template_deterministic (p q : TemplateParams)
    (h1 : p.tab_title = q.tab_title) (h2 : p.game_name = q.game_name)
    (h3 : p.server_name = q.server_name) (h4 : p.content = q.content) :
    base_template p = base_template q := by
  simp [base_template, h1, h2, h3, h4]

/-- Witness for C8 at concrete parameters. -/
theorem base_template_deterministic_witness :
    base_template { tab_title := "t", game_name := "g", server_name := "s", content := "c" } =
    base_template { tab_title := "t", game_name := "g", server_name := "s", content := "c" } :=
  base_template_deterministic _ _ rfl rfl rfl rfl

/-- C9: a valid ban submission removes every roster entry whose id
equals the submitted id (duplicates included), keeps every other entry,
preserves the relative order of the kept entries (the result is a
sublist of the roster), and the removal does not depend on the
submitted name. -/
theorem ban_player_roster_removal (s : RconState) (form : RconPlayer)
    (hid : form.unique_id ≠ "") (hname : form.name ≠ "") :
    (∀ p ∈ s.players, p.unique_id ≠ form.unique_id → p ∈ (ban_player form s).1.players) ∧
    (∀ p ∈ (ban_player form s).1.players, p.unique_id ≠ form.unique_id) ∧
    ((ban_player form s).1.players).Sublist s.players ∧
    ∀ n : String, n ≠ "" →
      (ban_player { unique_id := form.unique_id, name := n } s).1.players =
        (ban_player form s).1.players := by
  rw [ban_player_run s form hid hname]
  refine ⟨?_, ?_, ?_, ?_⟩
  · intro p hp hne
    exact List.mem_filter.mpr ⟨hp, by simpa using hne⟩
  · intro p hp
    simpa using (List.mem_filter.mp hp).2
  · exact List.filter_sublist _
  · intro n hn
    rw [ban_player_run s { unique_id := form.unique_id, name := n } hid hn]

/-- Witness for C9: roster with two entries for steam_123 around one for
steam_456; banning steam_123 under a different name removes both
duplicates and keeps steam_456. -/
theorem ban_player_roster_removal_witness :
    (∀ p ∈ ([{ unique_id := "steam_123", name := "A" },
             { unique_id := "steam_456", name := "B" },
             { unique_id := "steam_123", name := "C" }] : List RconPlayer),
        p.unique_id ≠ "steam_123" →
        p ∈ (ban_player { unique_id := "steam_123", name := "X" }
          { players := [{ unique_id := "steam_123", name := "A" },
                        { unique_id := "steam_456", name := "B" },
                        { unique_id := "steam_123", name := "C" }],
            banned := [] }).1.players) ∧
    (∀ p ∈ (ban_player { unique_id := "steam_123", name := "X" }
        { players := [{ unique_id := "steam_123", name := "A" },
                      { unique_id := "steam_456", name := "B" },
                      { unique_id := "steam_123", name := "C" }],
          banned := [] }).1.players, p.unique_id ≠ "steam_123") ∧
    ((ban_player { unique_id := "steam_123", name := "X" }
        { players := [{ unique_id := "steam_123", name := "A" },
                      { unique_id := "steam_456", name := "B" },
                      { unique_id := "steam_123", name := "C" }],
          banned := [] }).1.players).Sublist
      [{ unique_id := "steam_123", name := "A" },
       { unique_id := "steam_456", name := "B" },
       { unique_id := "steam_123", name := "C" }] ∧
    ∀ n : String, n ≠ "" →
      (ban_player { unique_id := "steam_123", name := n }
        { players := [{ unique_id := "steam_123", name := "A" },
                      { unique_id := "steam_456", name := "B" },
                      { unique_id := "steam_123", name := "C" }],
          banned := [] }).1.players =
        (ban_player { unique_id := "steam_123", name := "X" }
          { players := [{ unique_id := "steam_123", name := "A" },
                        { unique_id := "steam_456", name := "B" },
                        { unique_id := "steam_123", name := "C" }],
            banned := [] }).1.players :=
  ban_player_roster_removal
    { players := [{ unique_id := "steam_123", name := "A" },
                  { unique_id := "steam_456", name := "B" },
                  { unique_id := "steam_123", name := "C" }],
      banned := [] }
    { unique_id := "steam_123", name := "X" }
    (by decide) (by decide)

/-- C10: the index page is a constant document: it is the same string
for every pair of store states, and the pages returned by `ban_player`
and `unban_player` equal that same constant (hence contain no data from
either store). -/
theorem index_constant (s t : RconState) (form : RconPlayer) (id : String) :
    index s = index t ∧ (ban_player form s).2.1 = index t ∧
    (unban_player id s).2.1 = index t := by
  refine ⟨rfl, ?_, rfl⟩
  simp only [ban_player]
  split <;> rfl
